import Mathlib

/-!
Shallow embedding of `src/data/data_generators.py` from the
`ecommerce-analytics-db` repository, together with theorems settling the
frozen claims about its data-synthesis and batch-insertion pipeline.

Modelling conventions:
* Python ints and timestamps are `Int` (timestamps as day numbers, so that
  `timedelta(days = k)` is `+ k`); prices are integers in cents, since the
  source rounds a uniform float to 2 decimal places.
* Rows are the tuples the source builds; heterogeneous DB rows are `List Val`.
* The database boundary is a `Cursor` state recording each batched write call
  issued by `execute_values`, with RETURNING inserts producing one fresh
  identifier per submitted row, in submission order.
* The random primitives (`random.randint`, `random.choice`, `random.sample`,
  faker values) are injected as explicit draw streams.  `randint(a, b)` is
  embedded as `a + seed % (b - a + 1)` (exactly the values the source can
  draw), `choice(l)` as `l.getD (seed % l.length) default` on the non-empty
  lists the source uses, and `random.sample(pop, k)` as an oracle list whose
  properties (no duplicates, drawn from the population, bounded size) appear
  as hypotheses where a theorem needs them.
* Raised Python exceptions are `Except.error`.
-/

namespace Ecom

set_option maxRecDepth 8000

/-- Python's `str.lower()` on the ASCII strings this module handles, written
as a structural map over the character list so that it evaluates by
reduction (`String.toLower` is the same map). -/
def lowerStr (s : String) : String := String.mk (s.data.map Char.toLower)

/-- A primitive SQL value: ints (also timestamps, as day numbers, and prices,
in cents) and strings.  A heterogeneous row tuple is a `List Val`. -/
inductive Val
  | vInt (i : Int)
  | vStr (s : String)
deriving DecidableEq

/-- A row submitted to the database, as in the Python tuples. -/
abbrev PyRow := List Val

/-- Cursor state at the insertion boundary: the batched write calls issued so
far (`execute_values` appends one entry per call), the pending result rows of
the most recent statement (for a RETURNING insert: one generated identifier
per inserted row, in submission order; this is what `fetchall` yields), and
the next fresh surrogate identifier the database will assign. -/
structure Cursor where
  calls : List (String × List PyRow)
  pending : List Int
  nextId : Int
deriving DecidableEq

/-- Embedding of `get_sql_template` (data_generators.py:20): the INSERT
template registry; a missing key is a Python `KeyError`, hence `none`. -/
def get_sql_template (key : String) : Option String :=
  if key = "customers" then
    some "INSERT INTO Customers (first_name, last_name, email, created_at) VALUES %s"
  else if key = "products" then
    some "INSERT INTO Products (name, category, price, created_at) VALUES %s"
  else if key = "orders" then
    some "INSERT INTO Orders (customer_id, order_date, status) VALUES %s RETURNING order_id"
  else if key = "order_items" then
    some "INSERT INTO Order_Items (order_id, product_id, quantity) VALUES %s"
  else if key = "reviews" then
    some "INSERT INTO Reviews (customer_id, product_id, rating, comment, review_date) VALUES %s"
  else if key = "shipments" then
    some "INSERT INTO Shipments (order_id, shipped_date, delivery_date, shipping_method, status) VALUES %s"
  else none

/-- Whether the first list of characters is an initial segment of the
second. -/
def charsHaveStart : List Char → List Char → Bool
  | [], _ => true
  | _ :: _, [] => false
  | a :: as, b :: bs => a == b && charsHaveStart as bs

/-- Whether the first list of characters occurs contiguously inside the
second. -/
def charsContain (sub : List Char) : List Char → Bool
  | [] => sub.isEmpty
  | b :: bs => charsHaveStart sub (b :: bs) || charsContain sub bs

/-- Whether an INSERT statement carries a RETURNING clause (only the orders
template does), so that executing it leaves result rows for `fetchall`. -/
def sqlReturnsIds (sql : String) : Bool := charsContain "RETURNING".data sql.data

/-- The identifiers a RETURNING insert of `len` rows generates when the next
free surrogate identifier is `start`: consecutive and in submission order. -/
def freshIds (start : Int) (len : Nat) : List Int :=
  (List.range len).map fun j => start + Int.ofNat j

/-- Embedding of `execute_values` (data_generators.py:62): one batched write
call for the whole `rows` argument.  The paging that the psycopg2 library may
perform internally is behind the external database boundary; at the level of
this module a single call is issued. -/
def execute_values (cur : Cursor) (sql : String) (rows : List PyRow) : Cursor :=
  { calls := cur.calls ++ [(sql, rows)]
  , pending := if sqlReturnsIds sql then freshIds cur.nextId rows.length else []
  , nextId := if sqlReturnsIds sql then cur.nextId + (rows.length : Int) else cur.nextId }

/-- Embedding of `insert_batch` (data_generators.py:299): empty input is a
no-op returning `[]` / `None`; otherwise the template is looked up (a missing
key raises) and `execute_values` is called exactly once with all rows; with
`return_ids` the first column of `fetchall` is returned. -/
def insert_batch (cur : Cursor) (sql_key : String) (rows : List PyRow) (return_ids : Bool) :
    Except String (Cursor × Option (List Int)) :=
  if rows.isEmpty then .ok (cur, if return_ids then some [] else none)
  else
    match get_sql_template sql_key with
    | none => .error ("KeyError: " ++ sql_key)
    | some sql =>
        let cur2 := execute_values cur sql rows
        if return_ids then .ok (cur2, some cur2.pending) else .ok (cur2, none)

/-- The identifier-pool dictionary `{"customers": ..., "products": ...,
"orders": ...}` built and returned by `curate_ids`. -/
structure IdCache where
  customers : List Int
  products : List Int
  orders : List Int
deriving DecidableEq

/-- What each of the three SELECT statements of `curate_ids` would yield on
the current database: the fetched identifier column, or the exception the
`cur.execute` call raises. -/
structure SelectCur where
  selCustomers : Except String (List Int)
  selProducts : Except String (List Int)
  selOrders : Except String (List Int)

/-- The fetch path of `curate_ids` (data_generators.py:93-108): SELECT
customers and raise `RuntimeError` if the pool is empty, then products
likewise, then orders with no emptiness check; a failing SELECT propagates. -/
def fetch_ids (cur : SelectCur) : Except String IdCache :=
  match cur.selCustomers with
  | .error e => .error e
  | .ok cs =>
      if cs.isEmpty then .error "No customers found. Customers must be generated first."
      else
        match cur.selProducts with
        | .error e => .error e
        | .ok ps =>
            if ps.isEmpty then .error "No products found. Products must be generated first."
            else
              match cur.selOrders with
              | .error e => .error e
              | .ok os => .ok ⟨cs, ps, os⟩

/-- Embedding of `curate_ids` (data_generators.py:78): if a cache is supplied
and all of its value lists are truthy (non-empty), the cache itself is
returned with no query; otherwise every pool is fetched afresh. -/
def curate_ids (cur : SelectCur) (cache : Option IdCache) : Except String IdCache :=
  match cache with
  | some c =>
      if !c.customers.isEmpty && !c.products.isEmpty && !c.orders.isEmpty then .ok c
      else fetch_ids cur
  | none => fetch_ids cur

/-- Embedding of `make_customers` (data_generators.py:135).  Each row draws a
first name, last name, free-email domain and creation timestamp from the fake
value source; the email is assembled from the lowercased names and the domain
with no uniqueness tracking of any kind. -/
def make_customers (n : Nat) (draw : Nat → String × String × String × Int) :
    List (String × String × String × Int) :=
  (List.range n).map fun j =>
    let d := draw j
    (d.1, d.2.1, lowerStr d.1 ++ "." ++ lowerStr d.2.1 ++ "@" ++ d.2.2.1, d.2.2.2)

/-- The category table of `make_products` (data_generators.py:171), with the
configured price band of each category in whole currency units. -/
def categories : List (String × Nat × Nat) :=
  [("Electronics", 50, 2000), ("Home", 10, 500), ("Clothing", 5, 150), ("Books", 5, 50),
   ("Toys", 5, 100), ("Sports", 10, 300), ("Beauty", 5, 100)]

/-- One draw of the fake value source for a product row: the category choice
seed, the price seed, the two name fragments and the creation timestamp. -/
structure ProdDraw where
  catIdx : Nat
  priceSeed : Nat
  company : String
  word : String
  created : Int

/-- The category `random.choice` picks for one product draw. -/
def chosenCat (d : ProdDraw) : String × Nat × Nat :=
  categories.getD (d.catIdx % categories.length) ("Electronics", 50, 2000)

/-- The product row `make_products` builds from one draw: the chosen
category, a name from company and capitalized word, and a price uniform in
the category's band, in cents (the source rounds a uniform float to 2 decimal
places, so the price is an integer number of cents inside the band). -/
def productOf (d : ProdDraw) : String × String × Nat × Int :=
  (d.company ++ " " ++ d.word.capitalize, (chosenCat d).1,
    100 * (chosenCat d).2.1 + d.priceSeed % (100 * ((chosenCat d).2.2 - (chosenCat d).2.1) + 1),
    d.created)

/-- Embedding of `make_products` (data_generators.py:161): `n` rows, each from
one draw of the fake value source. -/
def make_products (n : Nat) (draw : Nat → ProdDraw) : List (String × String × Nat × Int) :=
  (List.range n).map fun j => productOf (draw j)

/-- The order status enumeration of `make_orders_and_items`
(data_generators.py:208). -/
def statuses : List String :=
  ["pending", "processing", "shipped", "delivered", "cancelled", "returned"]

/-- One draw for an order row: the customer choice seed, the order date and
the status choice seed. -/
structure OrderDraw where
  cSeed : Nat
  odate : Int
  sSeed : Nat

/-- The order-row half of `make_orders_and_items` (data_generators.py:209):
`n` rows, each with a uniformly chosen customer identifier, a drawn order
date, and a uniformly chosen status. -/
def make_orders (customer_ids : List Int) (n : Nat) (draw : Nat → OrderDraw) :
    List (Int × Int × String) :=
  (List.range n).map fun j =>
    let d := draw j
    (customer_ids.getD (d.cSeed % customer_ids.length) 0, d.odate,
      statuses.getD (d.sSeed % statuses.length) "pending")

/-- One draw of the item builder for a single order: the product sample
`random.sample(product_ids, k)` (its defining properties — no duplicates,
drawn from the pool, `1 ≤ k ≤ min 4 (pool size)` — are hypotheses where
needed) and the per-item quantity seeds. -/
structure ItemsDraw where
  chosen : List Int
  qSeed : Nat → Nat

/-- The inner loop of `build_items` (data_generators.py:231): one item row per
sampled product, with quantity `randint(1, 5)`. -/
def items_for (oid : Int) (q : Nat → Nat) : List Int → Nat → List (Int × Int × Int)
  | [], _ => []
  | pid :: rest, j => (oid, pid, ((1 + q j % 5 : Nat) : Int)) :: items_for oid q rest (j + 1)

/-- The outer loop of `build_items` (data_generators.py:227): one sample draw
per order identifier, in order. -/
def build_items_aux (draw : Nat → ItemsDraw) : List Int → Nat → List (Int × Int × Int)
  | [], _ => []
  | oid :: rest, i => items_for oid (draw i).qSeed (draw i).chosen 0 ++ build_items_aux draw rest (i + 1)

/-- Embedding of the `build_items` closure returned by `make_orders_and_items`
(data_generators.py:216): the candidate order-item rows, appended exactly as
drawn, with no aggregation or deduplication step. -/
def build_items (draw : Nat → ItemsDraw) (order_ids : List Int) : List (Int × Int × Int) :=
  build_items_aux draw order_ids 0

/-- The tuple-to-row encodings used when orders and order items are handed to
`insert_batch`. -/
def orderRow (r : Int × Int × String) : PyRow := [Val.vInt r.1, Val.vInt r.2.1, Val.vStr r.2.2]

/-- Row encoding of an order-item triple. -/
def itemRow (r : Int × Int × Int) : PyRow := [Val.vInt r.1, Val.vInt r.2.1, Val.vInt r.2.2]

/-- Embedding of `generate_orders` (data_generators.py:346): guard on empty
pools, insert the order rows with `return_ids`, then — whenever any order
identifiers came back — insert `build_items order_ids` unchanged. -/
def generate_orders (cur : Cursor) (customer_ids product_ids : List Int) (n : Nat)
    (odraw : Nat → OrderDraw) (idraw : Nat → ItemsDraw) :
    Except String (Cursor × List Int) :=
  if customer_ids.isEmpty then .error "Cannot generate orders: no customers available."
  else if product_ids.isEmpty then .error "Cannot generate orders: no products available."
  else
    match insert_batch cur "orders" ((make_orders customer_ids n odraw).map orderRow) true with
    | .error e => .error e
    | .ok (cur1, idsOpt) =>
        if (idsOpt.getD []).isEmpty then .ok (cur1, idsOpt.getD [])
        else
          match insert_batch cur1 "order_items"
              ((build_items idraw (idsOpt.getD [])).map itemRow) false with
          | .error e => .error e
          | .ok (cur2, _) => .ok (cur2, idsOpt.getD [])

/-- The sentiment adjectives of `make_reviews` (data_generators.py:250). -/
def adjectives : List String :=
  ["great", "terrible", "excellent", "poor", "decent", "fantastic", "awful", "amazing"]

/-- One draw for a review row: customer, product and adjective choice seeds,
the rating seed, the generated sentence and the review date. -/
structure ReviewDraw where
  cSeed : Nat
  pSeed : Nat
  rSeed : Nat
  aSeed : Nat
  sentence : String
  rdate : Int

/-- The review row one draw produces: a uniformly chosen customer and
product, rating `randint(1, 5)`, and a comment assembled from a chosen
adjective and the generated sentence. -/
def reviewOf (customer_ids product_ids : List Int) (d : ReviewDraw) :
    Int × Int × Int × String × Int :=
  (customer_ids.getD (d.cSeed % customer_ids.length) 0,
   product_ids.getD (d.pSeed % product_ids.length) 0,
   ((1 + d.rSeed % 5 : Nat) : Int),
   "This product is " ++ adjectives.getD (d.aSeed % adjectives.length) "great" ++ ". " ++ d.sentence,
   d.rdate)

/-- Embedding of `make_reviews` (data_generators.py:238): `n` rows, each from
one draw of the fake value source. -/
def make_reviews (customer_ids product_ids : List Int) (n : Nat) (draw : Nat → ReviewDraw) :
    List (Int × Int × Int × String × Int) :=
  (List.range n).map fun j => reviewOf customer_ids product_ids (draw j)

/-- A well-formed `(order_id, order_date, status)` triple for the shipment
deriver. -/
structure OrderInfoT where
  oid : Int
  odate : Int
  status : String
deriving DecidableEq

/-- An input element of `make_shipments`: either a triple (a tuple of arity
3, which the loop header unpacks) or a tuple of the wrong arity, on which the
unpacking itself raises a `ValueError`. -/
inductive OrderRow
  | triple (t : OrderInfoT)
  | malformed (arity : Nat)
deriving DecidableEq

/-- The carrier enumeration of `make_shipments` (data_generators.py:279). -/
def carriers : List String := ["UPS", "FedEx", "USPS", "DHL"]

/-- The status test `status.lower() in ('shipped', 'delivered')` of
data_generators.py:282. -/
def qualifiesB (st : String) : Bool :=
  lowerStr st == "shipped" || lowerStr st == "delivered"

/-- The shipment status expression of data_generators.py:291. -/
def derivedStatus (st : String) : String :=
  if lowerStr st == "delivered" then "delivered" else "in_transit"

/-- A shipment row. -/
structure Shipment where
  oid : Int
  shipped : Int
  delivery : Int
  carrier : String
  status : String
deriving DecidableEq

/-- The shipment row the loop body of `make_shipments` builds for one
qualifying triple `t`, consuming the `k`-th draw of the random source (the
1-3 day shipping offset seed, the 1-7 day delivery offset seed and the
carrier choice seed). -/
def shipOf (rnd : Nat → Nat × Nat × Nat) (k : Nat) (t : OrderInfoT) : Shipment :=
  ⟨t.oid, t.odate + ((1 + (rnd k).1 % 3 : Nat) : Int),
    t.odate + ((1 + (rnd k).1 % 3 : Nat) : Int) + ((1 + (rnd k).2.1 % 7 : Nat) : Int),
    carriers.getD ((rnd k).2.2 % carriers.length) "UPS", derivedStatus t.status⟩

/-- The loop of `make_shipments` (data_generators.py:281), with `k` counting
the qualifying rows already emitted (each consumes one draw of the random
source).  Unpacking a tuple of the wrong arity raises, which aborts the
whole call. -/
def shipmentsAux (rnd : Nat → Nat × Nat × Nat) : List OrderRow → Nat → Except String (List Shipment)
  | [], _ => .ok []
  | OrderRow.malformed _ :: _, _ => .error "ValueError: not enough values to unpack"
  | OrderRow.triple t :: rest, k =>
      if qualifiesB t.status then
        (shipmentsAux rnd rest (k + 1)).map fun l => shipOf rnd k t :: l
      else shipmentsAux rnd rest k

/-- Embedding of `make_shipments` (data_generators.py:269). -/
def make_shipments (rows : List OrderRow) (rnd : Nat → Nat × Nat × Nat) :
    Except String (List Shipment) :=
  shipmentsAux rnd rows 0

/-- Characterization of the deriver's output on well-formed input: one
shipment per (already filtered) qualifying triple, consuming draws in
order starting at `k`.  Used only to prove properties of `make_shipments`. -/
def deriveSpec (rnd : Nat → Nat × Nat × Nat) : Nat → List OrderInfoT → List Shipment
  | _, [] => []
  | k, t :: rest => shipOf rnd k t :: deriveSpec rnd (k + 1) rest

/-! Concrete inputs used by evaluation theorems and witnesses. -/

/-- An arbitrary order row value for bulk-insert evaluation. -/
def sampleOrderRowV : PyRow := [Val.vInt 1, Val.vInt 0, Val.vStr "pending"]

/-- The cursor of a fresh session: no calls issued, no pending results, next
surrogate identifier 1. -/
def cursor0 : Cursor := ⟨[], [], 1⟩

/-- A draw stream on which every customer gets the same name and domain. -/
def drawDup : Nat → String × String × String × Int := fun _ => ("John", "Doe", "example.com", 0)

/-- A constant random stream for shipment derivation. -/
def rnd0 : Nat → Nat × Nat × Nat := fun _ => (0, 0, 0)

/-- An item-builder draw stream that always samples product 1, with quantity
seeds 1 and 2 for the first and second order respectively. -/
def drawCE : Nat → ItemsDraw := fun i => ⟨[1], fun _ => i + 1⟩

/-- A cursor over an empty database: every SELECT succeeds with no rows. -/
def curEmptyDB : SelectCur := ⟨.ok [], .ok [], .ok []⟩

/-- An item-builder draw stream that samples products 1 and 2 for every
order, with all quantity seeds 0. -/
def drawW : Nat → ItemsDraw := fun _ => ⟨[1, 2], fun _ => 0⟩

/-- A constant order draw stream. -/
def odraw0 : Nat → OrderDraw := fun _ => ⟨0, 0, 0⟩

/-- A constant customer draw stream. -/
def cdraw0 : Nat → String × String × String × Int := fun _ => ("Ann", "Lee", "mail.com", 0)

/-- A constant product draw stream. -/
def pdraw0 : Nat → ProdDraw := fun _ => ⟨0, 0, "Acme", "gadget", 0⟩

/-- A constant review draw stream. -/
def rdraw0 : Nat → ReviewDraw := fun _ => ⟨0, 0, 0, 0, "Nice.", 0⟩

/-- The first order-item row `build_items drawW [5, 6]` produces. -/
def witRow : Int × Int × Int := (5, 1, 1)

/-- The shipment derived from the single qualifying triple
`(1, 0, "shipped")` under the constant random stream `rnd0`. -/
def wship : Shipment := ⟨1, 1, 2, "UPS", "in_transit"⟩

/-- The successful result of a concrete one-order `generate_orders` run. -/
def genW : Cursor × List Int :=
  (generate_orders cursor0 [1] [1] 1 odraw0 drawW).toOption.getD (cursor0, [])

/-! Theorems settling the claims. -/

/-- Claim C1: the source `insert_batch` does not chunk.  Submitting 250 rows
issues exactly one batched write call carrying all 250 rows — not 3 calls of
sizes 100, 100, 50 — and there is no chunk-size parameter at all; the
identifier list returned for the RETURNING orders table does have length 250.
This evaluates the code at the claim's own example input. -/
theorem insert_batch_no_chunking_250 :
    (insert_batch cursor0 "orders" (List.replicate 250 sampleOrderRowV) true).map
        (fun p => (p.1.calls.map fun c => c.2.length, p.2.map List.length))
      = .ok ([250], some 250) := by
  rfl

/-- Claim C4: the source `make_customers` performs no uniqueness tracking,
no reset-and-retry and raises no error: two draws with the same names and
domain yield two rows with the identical email. -/
theorem make_customers_duplicate_email_no_retry :
    make_customers 2 drawDup
        = [("John", "Doe", "john.doe@example.com", 0), ("John", "Doe", "john.doe@example.com", 0)]
      ∧ ¬ ((make_customers 2 drawDup).map fun r => r.2.2.1).Nodup := by
  refine ⟨by rfl, ?_⟩
  decide

/-- Claim C5: a malformed element (a tuple of the wrong arity) makes the
source `make_shipments` raise while unpacking, aborting the whole call — it
is not skipped, and the well-formed triples around it produce no output. -/
theorem make_shipments_malformed_row_raises :
    make_shipments
        [OrderRow.triple ⟨1, 0, "shipped"⟩, OrderRow.malformed 1, OrderRow.triple ⟨3, 0, "delivered"⟩]
        rnd0
      = .error "ValueError: not enough values to unpack" := by
  rfl

/-- Claim C2, counterexample: no aggregation step exists, so candidate rows
with a repeated (order, product) pair — which arise exactly when the order
identifier list repeats an identifier — are submitted as two separate rows
with their individual quantities, not merged into one row of summed
quantity. -/
theorem build_items_duplicate_pair_unaggregated :
    build_items drawCE [7, 7] = [(7, 1, 2), (7, 1, 3)]
      ∧ ¬ ((build_items drawCE [7, 7]).map fun r => (r.1, r.2.1)).Nodup := by
  refine ⟨by rfl, ?_⟩
  decide

/-- Claim C3, counterexample: when the customers SELECT succeeds but returns
an empty pool, the source `curate_ids` raises a `RuntimeError` at once —
there is no fallback to a synthetic identifier range. -/
theorem curate_ids_raises_on_empty_select :
    curate_ids curEmptyDB none
      = .error "No customers found. Customers must be generated first." := by
  rfl

theorem shipmentsAux_spec (rnd : Nat → Nat × Nat × Nat) (ts : List OrderInfoT) (k : Nat) :
    shipmentsAux rnd (ts.map OrderRow.triple) k
      = .ok (deriveSpec rnd k (ts.filter fun t => qualifiesB t.status)) := by
  induction ts generalizing k with
  | nil => rfl
  | cons t rest ih =>
      by_cases h : qualifiesB t.status
      · simp [shipmentsAux, h, ih, List.filter_cons, deriveSpec, Except.map]
      · simp [shipmentsAux, h, ih, List.filter_cons]

theorem deriveSpec_map_oid_status (rnd : Nat → Nat × Nat × Nat) (k : Nat) (ts : List OrderInfoT) :
    (deriveSpec rnd k ts).map (fun s => (s.oid, s.status))
      = ts.map fun t => (t.oid, derivedStatus t.status) := by
  induction ts generalizing k with
  | nil => rfl
  | cons t rest ih => simp [deriveSpec, shipOf, ih]

theorem deriveSpec_length (rnd : Nat → Nat × Nat × Nat) (k : Nat) (ts : List OrderInfoT) :
    (deriveSpec rnd k ts).length = ts.length := by
  induction ts generalizing k with
  | nil => rfl
  | cons t rest ih => simp [deriveSpec, ih]

theorem deriveSpec_dates (rnd : Nat → Nat × Nat × Nat) (k : Nat) (ts : List OrderInfoT) :
    ∀ p ∈ (deriveSpec rnd k ts).zip ts, p.2.odate < p.1.shipped ∧ p.1.shipped < p.1.delivery := by
  induction ts generalizing k with
  | nil => intro p hp; simp [deriveSpec] at hp
  | cons t rest ih =>
      intro p hp
      rcases List.mem_cons.mp (by simpa [deriveSpec] using hp) with h | h
      · subst h
        refine ⟨?_, ?_⟩ <;> simp only [shipOf] <;> omega
      · exact ih (k + 1) p h

/-- Claim C6: on well-formed triples the deriver never raises, and emits, in
input order, exactly one shipment per triple whose status is
case-insensitively shipped or delivered — with derived status "delivered"
for delivered sources and "in_transit" for shipped sources — and nothing for
any other status, so the output count never exceeds the input count. -/
theorem make_shipments_status_mapping (ts : List OrderInfoT) (rnd : Nat → Nat × Nat × Nat) :
    ∃ l, make_shipments (ts.map OrderRow.triple) rnd = .ok l
      ∧ l.map (fun s => (s.oid, s.status))
          = (ts.filter fun t => qualifiesB t.status).map (fun t => (t.oid, derivedStatus t.status))
      ∧ l.length ≤ ts.length := by
  refine ⟨_, shipmentsAux_spec rnd ts 0, deriveSpec_map_oid_status rnd 0 _, ?_⟩
  rw [deriveSpec_length]
  exact List.length_filter_le _ ts

/-- Claim C7: every shipment the deriver produces has its shipped date
strictly after its source order's date (by the 1-3 day offset) and its
delivery date strictly after the shipped date (by the 1-7 day offset). -/
theorem make_shipments_date_ordering (ts : List OrderInfoT) (rnd : Nat → Nat × Nat × Nat)
    (l : List Shipment) (h : make_shipments (ts.map OrderRow.triple) rnd = .ok l) :
    ∀ p ∈ l.zip (ts.filter fun t => qualifiesB t.status),
      p.2.odate < p.1.shipped ∧ p.1.shipped < p.1.delivery := by
  have h2 := shipmentsAux_spec rnd ts 0
  have hl : l = deriveSpec rnd 0 (ts.filter fun t => qualifiesB t.status) :=
    Except.ok.inj (h.symm.trans h2)
  subst hl
  exact deriveSpec_dates rnd 0 _

/-- Witness for the date-ordering theorem at the concrete qualifying triple
`(1, 0, "shipped")` under the constant random stream. -/
theorem make_shipments_date_ordering_witness :
    (OrderInfoT.mk 1 0 "shipped").odate < wship.shipped ∧ wship.shipped < wship.delivery := by
  have h := make_shipments_date_ordering [⟨1, 0, "shipped"⟩] rnd0 [wship] (by rfl)
  exact h (wship, ⟨1, 0, "shipped"⟩) (by decide)

/-- Claim C3 as amended: identifier-pool resolution has no synthetic-range
fallback at all — a failing customers SELECT propagates its exception, an
empty customers pool raises at once, an empty products pool (after a
non-empty customers pool) raises at once, and only the orders pool may be
empty without raising. -/
theorem curate_ids_error_behavior :
    (∀ cur e, cur.selCustomers = .error e → curate_ids cur none = .error e)
    ∧ (∀ cur, cur.selCustomers = .ok [] → curate_ids cur none
        = .error "No customers found. Customers must be generated first.")
    ∧ (∀ cur cs, cur.selCustomers = .ok cs → cs ≠ [] → cur.selProducts = .ok [] →
        curate_ids cur none = .error "No products found. Products must be generated first.")
    ∧ (∀ cs ps os, cs ≠ [] → ps ≠ [] →
        curate_ids ⟨.ok cs, .ok ps, .ok os⟩ none = .ok ⟨cs, ps, os⟩) := by
  refine ⟨?_, ?_, ?_, ?_⟩
  · intro cur e h
    simp [curate_ids, fetch_ids, h]
  · intro cur h
    simp [curate_ids, fetch_ids, h]
  · intro cur cs hcs hne hps
    cases cs with
    | nil => exact absurd rfl hne
    | cons a l => simp [curate_ids, fetch_ids, hcs, hps]
  · intro cs ps os hcs hps
    cases cs with
    | nil => exact absurd rfl hcs
    | cons a l =>
        cases ps with
        | nil => exact absurd rfl hps
        | cons b m => simp [curate_ids, fetch_ids]

/-- Witness for the amended resolution-error theorem at concrete cursors. -/
theorem curate_ids_error_behavior_witness :
    curate_ids ⟨.error "db down", .ok [1], .ok []⟩ none = .error "db down"
    ∧ curate_ids ⟨.ok [], .ok [1], .ok []⟩ none
        = .error "No customers found. Customers must be generated first."
    ∧ curate_ids ⟨.ok [1], .ok [], .ok []⟩ none
        = .error "No products found. Products must be generated first."
    ∧ curate_ids ⟨.ok [1], .ok [2], .ok []⟩ none = .ok ⟨[1], [2], []⟩ :=
  ⟨curate_ids_error_behavior.1 _ _ rfl,
   curate_ids_error_behavior.2.1 _ rfl,
   curate_ids_error_behavior.2.2.1 _ _ rfl (by decide) rfl,
   curate_ids_error_behavior.2.2.2 _ _ _ (by decide) (by decide)⟩

/-- Claim C10: a supplied cache whose three value lists are all non-empty is
returned as-is regardless of the database state, hence with no query; a
cache with any empty value list is ignored entirely and resolution behaves
exactly as with no cache, re-fetching all three pools — which raises on an
empty database even though the caller supplied non-empty customer and
product pools. -/
theorem curate_ids_cache_behavior :
    (∀ cur c, c.customers ≠ [] → c.products ≠ [] → c.orders ≠ [] →
        curate_ids cur (some c) = .ok c)
    ∧ (∀ cur c, c.customers = [] ∨ c.products = [] ∨ c.orders = [] →
        curate_ids cur (some c) = curate_ids cur none)
    ∧ curate_ids curEmptyDB (some ⟨[1], [2], []⟩)
        = .error "No customers found. Customers must be generated first." := by
  refine ⟨?_, ?_, rfl⟩
  · intro cur c h1 h2 h3
    obtain ⟨cs, ps, os⟩ := c
    cases cs with
    | nil => exact absurd rfl h1
    | cons a as =>
        cases ps with
        | nil => exact absurd rfl h2
        | cons b bs =>
            cases os with
            | nil => exact absurd rfl h3
            | cons d ds => simp [curate_ids]
  · intro cur c h
    obtain ⟨cs, ps, os⟩ := c
    rcases h with h | h | h <;> subst h <;> simp [curate_ids]

/-- Witness for the cache-behavior theorem at concrete caches over the empty
database. -/
theorem curate_ids_cache_behavior_witness :
    curate_ids curEmptyDB (some ⟨[1], [2], [3]⟩) = .ok ⟨[1], [2], [3]⟩
    ∧ curate_ids curEmptyDB (some ⟨[1], [2], []⟩) = curate_ids curEmptyDB none :=
  ⟨curate_ids_cache_behavior.1 _ _ (by decide) (by decide) (by decide),
   curate_ids_cache_behavior.2.1 _ _ (Or.inr (Or.inr rfl))⟩

theorem items_for_map_pair (oid : Int) (q : Nat → Nat) :
    ∀ (chosen : List Int) (j : Nat),
      (items_for oid q chosen j).map (fun r => (r.1, r.2.1)) = chosen.map fun pid => (oid, pid) := by
  intro chosen
  induction chosen with
  | nil => intro j; rfl
  | cons pid rest ih => intro j; simp [items_for, ih]

theorem items_for_fst (oid : Int) (q : Nat → Nat) :
    ∀ (chosen : List Int) (j : Nat) (r : Int × Int × Int), r ∈ items_for oid q chosen j →
      r.1 = oid := by
  intro chosen
  induction chosen with
  | nil => intro j r h; simp [items_for] at h
  | cons pid rest ih =>
      intro j r h
      rcases List.mem_cons.mp h with h1 | h2
      · subst h1; rfl
      · exact ih (j + 1) r h2

theorem items_for_qty (oid : Int) (q : Nat → Nat) :
    ∀ (chosen : List Int) (j : Nat) (r : Int × Int × Int), r ∈ items_for oid q chosen j →
      1 ≤ r.2.2 ∧ r.2.2 ≤ 5 := by
  intro chosen
  induction chosen with
  | nil => intro j r h; simp [items_for] at h
  | cons pid rest ih =>
      intro j r h
      rcases List.mem_cons.mp h with h1 | h2
      · subst h1
        constructor
        · show (1 : Int) ≤ ((1 + q j % 5 : Nat) : Int)
          omega
        · show ((1 + q j % 5 : Nat) : Int) ≤ 5
          omega
      · exact ih (j + 1) r h2

theorem build_items_aux_fst_mem (draw : Nat → ItemsDraw) :
    ∀ (oids : List Int) (i : Nat) (r : Int × Int × Int), r ∈ build_items_aux draw oids i →
      r.1 ∈ oids := by
  intro oids
  induction oids with
  | nil => intro i r h; simp [build_items_aux] at h
  | cons oid rest ih =>
      intro i r h
      rcases List.mem_append.mp (by simpa [build_items_aux] using h) with h1 | h2
      · exact (items_for_fst oid (draw i).qSeed (draw i).chosen 0 r h1) ▸ List.mem_cons_self oid rest
      · exact List.mem_cons_of_mem oid (ih (i + 1) r h2)

theorem build_items_aux_qty (draw : Nat → ItemsDraw) :
    ∀ (oids : List Int) (i : Nat) (r : Int × Int × Int), r ∈ build_items_aux draw oids i →
      1 ≤ r.2.2 ∧ r.2.2 ≤ 5 := by
  intro oids
  induction oids with
  | nil => intro i r h; simp [build_items_aux] at h
  | cons oid rest ih =>
      intro i r h
      rcases List.mem_append.mp (by simpa [build_items_aux] using h) with h1 | h2
      · exact items_for_qty oid (draw i).qSeed (draw i).chosen 0 r h1
      · exact ih (i + 1) r h2

theorem build_items_aux_pairs_nodup (draw : Nat → ItemsDraw)
    (hs : ∀ i, (draw i).chosen.Nodup) :
    ∀ (oids : List Int), oids.Nodup → ∀ (i : Nat),
      ((build_items_aux draw oids i).map fun r => (r.1, r.2.1)).Nodup := by
  intro oids
  induction oids with
  | nil => intro _ i; simp [build_items_aux]
  | cons oid rest ih =>
      intro hnd i
      have hoid : oid ∉ rest := (List.nodup_cons.mp hnd).1
      show ((items_for oid (draw i).qSeed (draw i).chosen 0
          ++ build_items_aux draw rest (i + 1)).map fun r => (r.1, r.2.1)).Nodup
      rw [List.map_append]
      refine List.Nodup.append ?_ (ih (List.nodup_cons.mp hnd).2 (i + 1)) ?_
      · rw [items_for_map_pair]
        exact (hs i).map (Prod.mk.inj_left oid)
      · intro p hp1 hp2
        rw [items_for_map_pair] at hp1
        obtain ⟨pid, _, hpid⟩ := List.mem_map.mp hp1
        obtain ⟨r, hr, hrp⟩ := List.mem_map.mp hp2
        have h1 : p.1 = oid := by rw [← hpid]
        have h2 : p.1 = r.1 := by rw [← hrp]
        exact hoid (h1 ▸ h2 ▸ build_items_aux_fst_mem draw rest (i + 1) r hr)

theorem freshIds_nodup (start : Int) (len : Nat) : (freshIds start len).Nodup := by
  rw [freshIds]
  have hf : Function.Injective (fun j : Nat => start + Int.ofNat j) := by
    intro a b hab
    have hab2 : start + Int.ofNat a = start + Int.ofNat b := hab
    exact Int.ofNat.inj (add_left_cancel hab2)
  exact List.Nodup.map hf (List.nodup_range len)

theorem insert_batch_ret_ids_nodup (cur : Cursor) (sql_key : String) (rows : List PyRow)
    (cur1 : Cursor) (idsOpt : Option (List Int))
    (h : insert_batch cur sql_key rows true = .ok (cur1, idsOpt)) :
    (idsOpt.getD []).Nodup := by
  rw [insert_batch] at h
  split at h
  · obtain ⟨-, h2⟩ := Prod.mk.injEq .. ▸ Except.ok.inj h
    rw [← h2]
    exact List.nodup_nil
  · split at h
    · exact absurd h (by simp)
    · obtain ⟨-, h2⟩ := Prod.mk.injEq .. ▸ Except.ok.inj h
      rw [← h2]
      show (execute_values cur _ rows).pending.Nodup
      rw [execute_values]
      split
      · exact freshIds_nodup _ _
      · exact List.nodup_nil

/-- Helper: in a list whose key projection has no duplicates, filtering by
the key of a member yields exactly that member. -/
theorem filter_key_eq_singleton {α β : Type _} [DecidableEq β] (key : α → β) :
    ∀ (l : List α), (l.map key).Nodup → ∀ r ∈ l,
      l.filter (fun x => decide (key x = key r)) = [r] := by
  intro l
  induction l with
  | nil => intro _ r hr; simp at hr
  | cons a rest ih =>
      intro hnd r hr
      have hka : key a ∉ rest.map key := (List.nodup_cons.mp (by simpa using hnd)).1
      have hnd2 : (rest.map key).Nodup := (List.nodup_cons.mp (by simpa using hnd)).2
      rcases List.mem_cons.mp hr with h1 | h2
      · subst h1
        have hrest : rest.filter (fun x => decide (key x = key r)) = [] := by
          refine List.filter_eq_nil_iff.mpr fun x hx => ?_
          simp only [decide_eq_true_eq]
          exact fun hEq => hka (hEq ▸ List.mem_map_of_mem key hx)
        simp [List.filter_cons, hrest]
      · have hne : decide (key a = key r) = false :=
          decide_eq_false fun hEq => hka (hEq ▸ List.mem_map_of_mem key h2)
        simp [List.filter_cons, hne, ih hnd2 r h2]

/-- Claim C2 as amended: the code performs no aggregation — the order-item
rows submitted for insertion are exactly the candidate rows `build_items`
appends.  Whenever the order identifiers are pairwise distinct (as returned
insertion identifiers are) and each per-order product sample is
duplicate-free (as `random.sample` guarantees), those rows already contain
exactly one row per occurring (order, product) pair, whose quantity — the
single drawn quantity — trivially equals the sum of the quantities submitted
for that pair. -/
theorem build_items_one_row_per_pair (draw : Nat → ItemsDraw) (order_ids : List Int)
    (h1 : order_ids.Nodup) (h2 : ∀ i, (draw i).chosen.Nodup) :
    ∀ r ∈ build_items draw order_ids,
      (build_items draw order_ids).filter (fun r2 => decide ((r2.1, r2.2.1) = (r.1, r.2.1))) = [r]
      ∧ (((build_items draw order_ids).filter
            (fun r2 => decide ((r2.1, r2.2.1) = (r.1, r.2.1)))).map fun r2 => r2.2.2).sum
          = r.2.2 := by
  intro r hr
  have hsingle : (build_items draw order_ids).filter
      (fun r2 => decide ((r2.1, r2.2.1) = (r.1, r.2.1))) = [r] :=
    filter_key_eq_singleton (fun r2 : Int × Int × Int => (r2.1, r2.2.1))
      (build_items draw order_ids) (build_items_aux_pairs_nodup draw h2 order_ids h1 0) r hr
  exact ⟨hsingle, by rw [hsingle]; simp⟩

/-- Witness for the one-row-per-pair theorem at a concrete duplicate-free
run. -/
theorem build_items_one_row_per_pair_witness :
    (build_items drawW [5, 6]).filter
        (fun r2 => decide ((r2.1, r2.2.1) = (witRow.1, witRow.2.1))) = [witRow]
    ∧ (((build_items drawW [5, 6]).filter
          (fun r2 => decide ((r2.1, r2.2.1) = (witRow.1, witRow.2.1)))).map fun r2 => r2.2.2).sum
        = witRow.2.2 :=
  build_items_one_row_per_pair drawW [5, 6] (by decide)
    (fun _ => (by decide : ([1, 2] : List Int).Nodup)) witRow (by decide)

/-- Claim C8: order-item rows never repeat an (order, product) pair — the
builder walks each order identifier once and samples its products without
replacement, so with pairwise-distinct order identifiers the pair projection
of its output has no duplicates; and the order-identifier list a
`generate_orders` run feeds to the builder (the identifiers returned by the
orders insert) is itself duplicate-free. -/
theorem order_items_no_duplicate_pairs :
    (∀ (draw : Nat → ItemsDraw) (order_ids : List Int), order_ids.Nodup →
        (∀ i, (draw i).chosen.Nodup) →
        ((build_items draw order_ids).map fun r => (r.1, r.2.1)).Nodup)
    ∧ (∀ cur cids pids n odraw idraw p,
        generate_orders cur cids pids n odraw idraw = .ok p → p.2.Nodup) := by
  refine ⟨fun draw order_ids h1 h2 => build_items_aux_pairs_nodup draw h2 order_ids h1 0, ?_⟩
  intro cur cids pids n odraw idraw p h
  rw [generate_orders] at h
  split at h
  · exact absurd h (by simp)
  · split at h
    · exact absurd h (by simp)
    · split at h
      · exact absurd h (by simp)
      · rename_i cur1 idsOpt heq
        split at h
        · obtain ⟨-, h2⟩ := Prod.mk.injEq .. ▸ Except.ok.inj h
          rw [← h2]
          exact insert_batch_ret_ids_nodup _ _ _ _ _ heq
        · split at h
          · exact absurd h (by simp)
          · obtain ⟨-, h2⟩ := Prod.mk.injEq .. ▸ Except.ok.inj h
            rw [← h2]
            exact insert_batch_ret_ids_nodup _ _ _ _ _ heq

/-- Witness for the no-duplicate-pairs theorem: a concrete builder run and a
concrete `generate_orders` run. -/
theorem order_items_no_duplicate_pairs_witness :
    ((build_items drawW [5, 6]).map fun r => (r.1, r.2.1)).Nodup ∧ genW.2.Nodup :=
  ⟨order_items_no_duplicate_pairs.1 drawW [5, 6] (by decide)
      (fun _ => (by decide : ([1, 2] : List Int).Nodup)),
   order_items_no_duplicate_pairs.2 cursor0 [1] [1] 1 odraw0 drawW genW (by rfl)⟩

theorem chosenCat_mem (d : ProdDraw) : chosenCat d ∈ categories := by
  have hm : d.catIdx % categories.length < categories.length := Nat.mod_lt _ (by decide)
  rw [chosenCat, List.getD_eq_getElem _ _ hm]
  exact List.getElem_mem hm

theorem catBand_le : ∀ c ∈ categories, c.2.1 ≤ c.2.2 := by decide

theorem productOf_band (d : ProdDraw) :
    100 * (chosenCat d).2.1 ≤ (productOf d).2.2.1
      ∧ (productOf d).2.2.1 ≤ 100 * (chosenCat d).2.2 := by
  have h2 := catBand_le _ (chosenCat_mem d)
  have h1 : d.priceSeed % (100 * ((chosenCat d).2.2 - (chosenCat d).2.1) + 1)
      < 100 * ((chosenCat d).2.2 - (chosenCat d).2.1) + 1 := Nat.mod_lt _ (Nat.succ_pos _)
  constructor
  · show 100 * (chosenCat d).2.1
        ≤ 100 * (chosenCat d).2.1 + d.priceSeed % (100 * ((chosenCat d).2.2 - (chosenCat d).2.1) + 1)
    omega
  · show 100 * (chosenCat d).2.1 + d.priceSeed % (100 * ((chosenCat d).2.2 - (chosenCat d).2.1) + 1)
        ≤ 100 * (chosenCat d).2.2
    omega

theorem reviewOf_rating (cids pids : List Int) (d : ReviewDraw) :
    1 ≤ (reviewOf cids pids d).2.2.1 ∧ (reviewOf cids pids d).2.2.1 ≤ 5 := by
  constructor
  · show (1 : Int) ≤ ((1 + d.rSeed % 5 : Nat) : Int)
    omega
  · show ((1 + d.rSeed % 5 : Nat) : Int) ≤ 5
    omega

/-- Claim C9: every row-count-parameterized synthesizer returns exactly `n`
rows for every `n ≥ 0` (the documented arity is enforced by the row types);
each product's category is one of the configured categories with the price
inside that category's band (in cents); each review rating lies in 1-5; and
each order-item quantity lies in 1-5. -/
theorem synthesizers_count_and_ranges :
    (∀ n draw, (make_customers n draw).length = n)
    ∧ (∀ n draw, (make_products n draw).length = n
        ∧ ∀ p ∈ make_products n draw, ∃ c, c ∈ categories ∧ p.2.1 = c.1
            ∧ 100 * c.2.1 ≤ p.2.2.1 ∧ p.2.2.1 ≤ 100 * c.2.2)
    ∧ (∀ cids pids n draw, (make_reviews cids pids n draw).length = n
        ∧ ∀ r ∈ make_reviews cids pids n draw, 1 ≤ r.2.2.1 ∧ r.2.2.1 ≤ 5)
    ∧ (∀ cids n draw, (make_orders cids n draw).length = n)
    ∧ (∀ draw oids, ∀ it ∈ build_items draw oids, 1 ≤ it.2.2 ∧ it.2.2 ≤ 5) := by
  refine ⟨?_, ?_, ?_, ?_, ?_⟩
  · intro n draw
    simp [make_customers]
  · intro n draw
    refine ⟨by simp [make_products], ?_⟩
    intro p hp
    obtain ⟨j, -, rfl⟩ := List.mem_map.mp hp
    exact ⟨chosenCat (draw j), chosenCat_mem _, rfl, productOf_band (draw j)⟩
  · intro cids pids n draw
    refine ⟨by simp [make_reviews], ?_⟩
    intro r hr
    obtain ⟨j, -, rfl⟩ := List.mem_map.mp hr
    exact reviewOf_rating cids pids (draw j)
  · intro cids n draw
    simp [make_orders]
  · intro draw oids it hit
    exact build_items_aux_qty draw oids 0 it hit

/-- Witness for the synthesizer count-and-range theorem at concrete draws. -/
theorem synthesizers_count_and_ranges_witness :
    (make_customers 3 cdraw0).length = 3
    ∧ (make_products 2 pdraw0).length = 2
    ∧ (∃ c, c ∈ categories ∧ (productOf (pdraw0 0)).2.1 = c.1
        ∧ 100 * c.2.1 ≤ (productOf (pdraw0 0)).2.2.1 ∧ (productOf (pdraw0 0)).2.2.1 ≤ 100 * c.2.2)
    ∧ (make_reviews [1] [2] 2 rdraw0).length = 2
    ∧ (1 ≤ (reviewOf [1] [2] (rdraw0 0)).2.2.1 ∧ (reviewOf [1] [2] (rdraw0 0)).2.2.1 ≤ 5)
    ∧ (make_orders [1] 2 odraw0).length = 2
    ∧ (1 ≤ witRow.2.2 ∧ witRow.2.2 ≤ 5) :=
  ⟨synthesizers_count_and_ranges.1 3 cdraw0,
   (synthesizers_count_and_ranges.2.1 2 pdraw0).1,
   (synthesizers_count_and_ranges.2.1 2 pdraw0).2 _ (List.mem_map.mpr ⟨0, by decide, rfl⟩),
   (synthesizers_count_and_ranges.2.2.1 [1] [2] 2 rdraw0).1,
   (synthesizers_count_and_ranges.2.2.1 [1] [2] 2 rdraw0).2 _ (List.mem_map.mpr ⟨0, by decide, rfl⟩),
   synthesizers_count_and_ranges.2.2.2.1 [1] 2 odraw0,
   synthesizers_count_and_ranges.2.2.2.2 drawW [5, 6] witRow (by decide)⟩

end Ecom
